import Mathlib

set_option maxRecDepth 40000

/-!
Verification of the Genesis cross-platform installation engine.

The definitions below are a shallow embedding of the TypeScript sources:
effectful collaborators (the shell, the package-manager subprocesses, the
file system, the registry, the sudo timestamp cache) are passed in as
explicit environment/state values, and functions that in the source throw
are modelled with `Except`.  Strings are Lean `String`s; the JavaScript
`s.includes(p)` substring test is modelled by `strIncludes` over character
lists (paths contain no newline, so testing the whole file content and
testing line by line agree).
-/

set_option autoImplicit false

namespace Genesis

/-- Substring helper: whether `p` occurs at the head of `l`
(mirrors matching a JavaScript substring candidate at one position). -/
def leadsWith : List Char → List Char → Bool
  | _, [] => true
  | [], _ :: _ => false
  | c :: cs, d :: ds => c == d && leadsWith cs ds

/-- Substring helper: whether `p` occurs somewhere inside `l`. -/
def hasSub : List Char → List Char → Bool
  | [], p => p.isEmpty
  | c :: cs, p => leadsWith (c :: cs) p || hasSub cs p

/-- Model of JavaScript `s.includes(p)`. -/
def strIncludes (s p : String) : Bool :=
  hasSub s.toList p.toList

/-- domain/types/os.ts: `OperatingSystem` — closed enumeration. -/
inductive OperatingSystem
  | macos
  | windows
  | linux
deriving DecidableEq, Repr

/-- domain/entities/tool.ts: `InstallationCommands` — per-OS install command. -/
structure InstallationCommands where
  macos : Option String
  windows : Option String
  linux : Option String
deriving DecidableEq, Repr

/-- domain/entities/tool.ts: the `Tool` entity. -/
structure Tool where
  id : String
  name : String
  checkCommand : String
  installCommands : InstallationCommands
  categoryId : String
  description : Option String := none
  isGUI : Bool := false
deriving DecidableEq, Repr

/-- domain/entities/tool.ts: `getInstallCommand`. -/
def getInstallCommand (tool : Tool) (os : OperatingSystem) : Option String :=
  match os with
  | .macos => tool.installCommands.macos
  | .windows => tool.installCommands.windows
  | .linux => tool.installCommands.linux

/-- domain/entities/category.ts: the `Category` entity. -/
structure Category where
  id : String
  name : String
  description : Option String := none
  tools : List Tool
  allowsMultipleSelection : Bool
  order : Option Nat := none
deriving DecidableEq, Repr

/-- index.ts: `filterCategoriesByOS` — drops the iOS category off macOS,
keeps only tools that have an install command for the current OS, and drops
categories left with no tools (the source maps to `null` and then filters
the `null`s out, i.e. a `filterMap`). -/
def filterCategoriesByOS (categories : List Category) (os : OperatingSystem) :
    List Category :=
  categories.filterMap fun category =>
    if category.id = "ios" ∧ os ≠ .macos then none
    else
      let filteredTools :=
        category.tools.filter fun tool => (getInstallCommand tool os).isSome
      if filteredTools.isEmpty then none
      else some { category with tools := filteredTools }

/-- installation-service.ts: `InstallationResult`. -/
structure InstallationResult where
  tool : Tool
  success : Bool
  alreadyInstalled : Bool
  message : String
  error : Option String := none
deriving DecidableEq, Repr

/-- Log levels of the clack prompt logger used by the service. -/
inductive LogLevel
  | info
  | step
  | success
  | warn
  | error
deriving DecidableEq, Repr

/-- Environment abstracting the effectful collaborators of
`InstallationService.installTool`: the exit code the shell reports for a
command run with `silent:true`, the outcome of `getPackageManager()`
(`.error` when it throws), and the outcome of `pm.install(tool)` keyed by
tool id (`.error msg` when it throws with message `msg`). -/
structure InstallEnv where
  checkExit : String → Int
  managerResolution : Except String Unit
  installOutcome : String → Except String Unit

/-- Trace of one `installTool` call: the returned `InstallationResult`,
whether `getPackageManager()` was entered, whether `pm.install` was
invoked, and the log level used to report an install failure. -/
structure InstallTrace where
  result : InstallationResult
  managerResolved : Bool
  installInvoked : Bool
  failureLog : Option LogLevel
deriving DecidableEq, Repr

/-- installation-service.ts: `checkInstalled` — runs the tool's
`checkCommand` silently and reports exit code 0 as installed. -/
def checkInstalled (env : InstallEnv) (tool : Tool) : Bool :=
  env.checkExit tool.checkCommand == 0

/-- installation-service.ts: `installTool` — idempotency check first, then
lazy manager resolution, then install; every failure is caught and turned
into the result's `error` string; GUI tools log failures at warning level. -/
def installTool (env : InstallEnv) (tool : Tool) : InstallTrace :=
  if checkInstalled env tool then
    { result := { tool := tool, success := true, alreadyInstalled := true,
                  message := tool.name ++ " já está instalado" },
      managerResolved := false, installInvoked := false, failureLog := none }
  else
    match env.managerResolution with
    | .error msg =>
        { result := { tool := tool, success := false, alreadyInstalled := false,
                      message := "Não foi possível instalar " ++ tool.name,
                      error := some msg },
          managerResolved := true, installInvoked := false, failureLog := none }
    | .ok _ =>
        match env.installOutcome tool.id with
        | .ok _ =>
            { result := { tool := tool, success := true, alreadyInstalled := false,
                          message := tool.name ++ " instalado com sucesso" },
              managerResolved := true, installInvoked := true, failureLog := none }
        | .error msg =>
            { result := { tool := tool, success := false, alreadyInstalled := false,
                          message := "Falha ao instalar " ++ tool.name,
                          error := some msg },
              managerResolved := true, installInvoked := true,
              failureLog := some (if tool.isGUI then .warn else .error) }

/-- installation-service.ts: `installTools` — sequential loop pushing one
result per tool; `installTool` never throws, so the loop always completes. -/
def installTools (env : InstallEnv) (tools : List Tool) : List InstallTrace :=
  tools.map (installTool env)

/-!  Package-manager resolution and caching (installation-service.ts). -/

/-- One resolved package-manager adapter object.  Each `new …Adapter()` in
the source allocates a fresh object; `nonce` records which allocation this
object came from, so object identity is equality of the record. -/
structure AdapterInstance where
  os : OperatingSystem
  nonce : Nat
deriving DecidableEq, Repr

/-- The `InstallationService` instance state: the `packageManager` cache
field, plus a count of adapter constructions performed so far (the source's
object-allocation effect, used as the nonce supply). -/
structure ServiceState where
  packageManager : Option AdapterInstance := none
  constructed : Nat := 0
deriving DecidableEq, Repr

/-- Effectful answers the world gives during one `getPackageManager()`
call: current OS, adapter availability probes, and the Homebrew bootstrap
dialog answers. -/
structure ManagerWorld where
  os : OperatingSystem
  brewAvailable : Bool
  wingetAvailable : Bool
  userAcceptsBrewInstall : Bool
  brewInstallSucceeds : Bool
  brewAvailableAfterInstall : Bool
deriving DecidableEq, Repr

/-- installation-service.ts: `getPackageManager` — returns the cached
adapter when present, otherwise constructs and probes one for the current
OS, caching it on success and throwing (`Except.error`) otherwise. -/
def getPackageManager (w : ManagerWorld) (st : ServiceState) :
    Except String AdapterInstance × ServiceState :=
  match st.packageManager with
  | some pm => (.ok pm, st)
  | none =>
    match w.os with
    | .macos =>
      let adapter : AdapterInstance := ⟨.macos, st.constructed⟩
      let st1 : ServiceState := { st with constructed := st.constructed + 1 }
      if w.brewAvailable then
        (.ok adapter, { st1 with packageManager := some adapter })
      else if ¬ w.userAcceptsBrewInstall then
        (.error "Homebrew não está disponível e a instalação foi cancelada. Instale manualmente em https://brew.sh", st1)
      else if ¬ w.brewInstallSucceeds then
        (.error "Homebrew não está disponível. Algumas ferramentas podem não ser instaladas.", st1)
      else if w.brewAvailableAfterInstall then
        (.ok adapter, { st1 with packageManager := some adapter })
      else
        (.error "Homebrew não está disponível no PATH. Reinicie o terminal ou adicione ao PATH manualmente.", st1)
    | .windows =>
      let adapter : AdapterInstance := ⟨.windows, st.constructed⟩
      let st1 : ServiceState := { st with constructed := st.constructed + 1 }
      if w.wingetAvailable then
        (.ok adapter, { st1 with packageManager := some adapter })
      else
        (.error "WinGet não está disponível no sistema", st1)
    | .linux =>
      let adapter : AdapterInstance := ⟨.linux, st.constructed⟩
      let st1 : ServiceState := { st with constructed := st.constructed + 1 }
      (.ok adapter, { st1 with packageManager := some adapter })

/-!  Homebrew adapter (homebrew-adapter.ts). -/

/-- shell-error.ts: the data carried by a `ShellError`. -/
structure ShellErrorData where
  message : String
  exitCode : Int
  command : String
  stdout : String := ""
  stderr : String := ""
deriving DecidableEq, Repr

/-- shell-wrapper.ts: `ShellResult`. -/
structure ShellResult where
  exitCode : Int
  stdout : String
  stderr : String
  command : String
deriving DecidableEq, Repr

/-- Behaviour of the child process spawned by `executeInteractive`:
whether the spawn itself errors, after how many milliseconds the `close`
event would fire, and the close code (`null` modelled as `none`). -/
structure ChildBehavior where
  spawnError : Option String := none
  closesAt : Nat
  closeCode : Option Int := some 0
deriving DecidableEq, Repr

/-- Signals the wrapper sends to the child. -/
inductive ChildSignal
  | sigterm
deriving DecidableEq, Repr

/-- shell-wrapper.ts: `executeInteractive` — default timeout 300000 ms; when
the timer fires before the child closes it kills the child with SIGTERM and
rejects with a `ShellError` carrying exit code 124, the command, and the
timeout (in seconds) in the message. -/
def executeInteractive (command : String) (timeoutOpt : Option Nat)
    (child : ChildBehavior) :
    Except ShellErrorData ShellResult × List ChildSignal :=
  let timeout := timeoutOpt.getD 300000
  match child.spawnError with
  | some emsg =>
      (.error { message := "Erro ao executar comando: " ++ emsg, exitCode := 1,
                command := command, stderr := emsg }, [])
  | none =>
      if child.closesAt < timeout then
        (.ok { exitCode := child.closeCode.getD 0, stdout := "", stderr := "",
               command := command }, [])
      else
        (.error { message := "Comando excedeu o timeout de " ++
                    toString (timeout / 1000) ++ "s",
                  exitCode := 124, command := command, stderr := "Timeout" },
         [.sigterm])

/-- homebrew-adapter.ts: `translateHomebrewError`. -/
def translateHomebrewError (e : ShellErrorData) (tool : Tool) : String :=
  let stderr := e.stderr.toLower
  let stdout := e.stdout.toLower
  if strIncludes stderr "no available formula" ||
     strIncludes stderr "no available cask" ||
     strIncludes stderr "could not find" then
    "Pacote '" ++ tool.name ++ "' não encontrado no Homebrew. Verifique se o nome está correto."
  else if strIncludes stderr "timeout" || strIncludes stderr "connection" ||
          strIncludes stderr "network" then
    "Falha de conexão ao tentar instalar '" ++ tool.name ++ "'. Verifique sua conexão com a internet."
  else if strIncludes stderr "permission" || strIncludes stderr "sudo" then
    "Permissão negada ao tentar instalar '" ++ tool.name ++ "'. Pode ser necessário executar com privilégios de administrador."
  else if strIncludes stderr "already installed" ||
          strIncludes stdout "already installed" then
    "'" ++ tool.name ++ "' já está instalado."
  else
    "Erro ao instalar '" ++ tool.name ++ "': " ++
      (if e.stderr ≠ "" then e.stderr else e.message)

/-- World for one Homebrew adapter call: availability probe answer, current
OS, and the behaviour of the interactive child process. -/
structure BrewWorld where
  brewAvailable : Bool
  os : OperatingSystem
  child : ChildBehavior
deriving DecidableEq, Repr

/-- homebrew-adapter.ts: `HomebrewAdapter.update` — runs `brew update` on
every call (there is no memoization flag on this adapter); the second
component counts executions of the package-index refresh command. -/
def HomebrewAdapter.update (w : BrewWorld) (brewUpdateSucceeds : Bool)
    (brewUpdateStderr : String) : Except String Unit × Nat :=
  if ¬ w.brewAvailable then
    (.error "Homebrew não está instalado. Instale em https://brew.sh", 0)
  else if brewUpdateSucceeds then (.ok (), 1)
  else (.error ("Falha ao atualizar Homebrew: " ++ brewUpdateStderr), 1)

/-- homebrew-adapter.ts: `HomebrewAdapter.install` — availability check, OS
check, resolve the macOS install command, then run it interactively with a
600000 ms timeout; the second component lists the interactive invocations
as (command, timeout-ms) pairs. -/
def HomebrewAdapter.install (w : BrewWorld) (tool : Tool) :
    Except String Unit × List (String × Nat) :=
  if ¬ w.brewAvailable then
    (.error "Homebrew não está instalado. Instale em https://brew.sh", [])
  else if w.os ≠ .macos then
    (.error "HomebrewAdapter só pode ser usado no macOS", [])
  else
    match getInstallCommand tool w.os with
    | none =>
        (.error ("Ferramenta " ++ tool.name ++ " não possui comando de instalação para macOS"), [])
    | some installCommand =>
        match (executeInteractive installCommand (some 600000) w.child).1 with
        | .ok _ => (.ok (), [(installCommand, 600000)])
        | .error e =>
            (.error (translateHomebrewError e tool), [(installCommand, 600000)])

/-!  Linux installer (linux-installer.ts) — only the parts claim C3 needs:
the memoized `update`. -/

/-- Per-call effect answers for `LinuxInstaller.update`: whether `which
apt-get` finds APT, and whether `SudoExecutor.requestPrivileges()` grants
elevation. -/
structure LinuxUpdateWorld where
  aptAvailable : Bool
  privilegesGranted : Bool
  aptUpdateSucceeds : Bool
deriving DecidableEq, Repr

/-- linux-installer.ts: `LinuxInstaller.update` — returns immediately when
`aptUpdateExecuted` is already set; otherwise, if APT is present and
privileges are granted, runs `apt-get update` once (a failure of the
command itself only warns) and sets the flag.  Result: (outcome, new flag,
number of `apt-get update` executions). -/
def LinuxInstaller.update (w : LinuxUpdateWorld) (aptUpdateExecuted : Bool) :
    Except String Unit × Bool × Nat :=
  if aptUpdateExecuted then (.ok (), aptUpdateExecuted, 0)
  else if ¬ w.aptAvailable then (.ok (), aptUpdateExecuted, 0)
  else if ¬ w.privilegesGranted then
    (.error "Privilégios de administrador necessários para atualizar o APT.",
     aptUpdateExecuted, 0)
  else (.ok (), true, 1)

/-- Total number of `apt-get update` executions over a sequence of
`LinuxInstaller.update` calls starting from a given flag state. -/
def LinuxInstaller.updateRuns : List LinuxUpdateWorld → Bool → Nat
  | [], _ => 0
  | w :: ws, flag =>
      let r := LinuxInstaller.update w flag
      r.2.2 + LinuxInstaller.updateRuns ws r.2.1

/-!  Privilege elevation (sudo-executor.ts, privilege-checker.ts). -/

/-- sudo-executor.ts: `SudoExecResult`. -/
structure SudoExecResult where
  success : Bool
  stdout : String
  stderr : String
  exitCode : Int
deriving DecidableEq, Repr

/-- World state threaded through `SudoExecutor`: current OS, the admin
probe (`PrivilegeChecker.isAdmin`), the OS sudo timestamp cache probed by
`sudo -n true` (`PrivilegeChecker.isSudoCached`), the user's answer to the
consent prompt, whether the interactive `sudo -v` validation succeeds, and
the outcome of plain command execution.  A successful `sudo -v` warms the
OS sudo timestamp cache, which the model records by setting `sudoCached`. -/
structure SudoWorld where
  os : OperatingSystem
  isAdmin : Bool
  sudoCached : Bool
  consent : Bool
  sudoValidationSucceeds : Bool
  execOutcome : String → SudoExecResult

/-- sudo-executor.ts: `SudoExecutor.requestPrivileges` — no prompt when
already admin, or when on Unix with a warm sudo cache; otherwise one
consent prompt followed by the platform elevation flow.  Result:
(granted, new world, number of consent prompts shown). -/
def requestPrivileges (w : SudoWorld) : Bool × SudoWorld × Nat :=
  if w.isAdmin then (true, w, 0)
  else if w.os ≠ .windows ∧ w.sudoCached then (true, w, 0)
  else if w.os = .windows then
    if w.consent then (true, w, 1) else (false, w, 1)
  else
    if ¬ w.consent then (false, w, 1)
    else if w.sudoValidationSucceeds then (true, { w with sudoCached := true }, 1)
    else (false, w, 1)

/-- sudo-executor.ts: `SudoExecutor.exec` — Windows runs directly (UAC per
command); Unix runs directly when admin or cached, otherwise requests
privileges first.  Result: (exec result, new world, prompts shown). -/
def sudoExec (w : SudoWorld) (command : String) :
    SudoExecResult × SudoWorld × Nat :=
  if w.os = .windows then (w.execOutcome command, w, 0)
  else if w.isAdmin ∨ w.sudoCached then
    (w.execOutcome (if w.isAdmin then command else "sudo " ++ command), w, 0)
  else
    let r := requestPrivileges w
    if r.1 then (r.2.1.execOutcome ("sudo " ++ command), r.2.1, r.2.2)
    else
      ({ success := false, stdout := "",
         stderr := "Privilégios de administrador não foram obtidos",
         exitCode := 1 }, r.2.1, r.2.2)

/-- One batch of elevated command executions, returning the final world and
the total number of consent prompts shown. -/
def sudoExecBatch : SudoWorld → List String → SudoWorld × Nat
  | w, [] => (w, 0)
  | w, c :: cs =>
      let r := sudoExec w c
      let rest := sudoExecBatch r.2.1 cs
      (rest.1, r.2.2 + rest.2)

/-!  Unix environment persistence (unix-environment-manager.ts). -/

/-- domain/interfaces/environment-manager.ts: `EnvironmentResult`. -/
structure EnvironmentResult where
  success : Bool
  message : String
  requiresRestart : Option Bool := none
deriving DecidableEq, Repr

/-- Shell kinds of `ShellInfo`. -/
inductive ShellKind
  | bash
  | zsh
  | fish
  | powershell
  | cmd
  | unknown
deriving DecidableEq, Repr

/-- State of the Unix environment manager: the entries of the live process
PATH (the source stores the raw string and splits on each query; entries
contain no separator, so the split/join round-trips), the memoized
`detectShell` answer, and the shell rc file — `none` when the file does not
exist, otherwise its lines (paths contain no newline, so the source's
whole-content `includes` test equals a line-by-line test). -/
structure UnixEnvState where
  processPath : List String
  shell : ShellKind
  configFile : String
  file : Option (List String)
deriving DecidableEq, Repr

/-- unix-environment-manager.ts: `generateExportLine`. -/
def generateExportLine (path : String) (shell : ShellKind) : String :=
  match shell with
  | .fish => "set -gx PATH \"" ++ path ++ "\" $PATH"
  | _ => "export PATH=\"" ++ path ++ ":$PATH\""

/-- unix-environment-manager.ts: `isInPath` — membership of the exact entry
in the live process PATH. -/
def Unix.isInPath (st : UnixEnvState) (path : String) : Bool :=
  st.processPath.contains path

/-- unix-environment-manager.ts: `refreshProcessPath` — prepends the entry
to the live process PATH unless it is already present. -/
def Unix.refreshProcessPath (st : UnixEnvState) (path : String) : UnixEnvState :=
  if st.processPath.contains path then st
  else { st with processPath := path :: st.processPath }

/-- Whether the rc file content contains `path` as a substring (the
source's `content.includes(path)`); `none` plays the role of a missing
file, for which the source skips the check. -/
def fileIncludes (file : List String) (path : String) : Bool :=
  file.any fun line => strIncludes line path

/-- unix-environment-manager.ts: `addToPath` — live-PATH check, shell
detection check, rc-file duplicate check, then append of the comment and
export line (creating the file when missing) and live-PATH refresh. -/
def Unix.addToPath (st : UnixEnvState) (path : String) :
    EnvironmentResult × UnixEnvState :=
  if Unix.isInPath st path then
    ({ success := true, message := path ++ " já está no PATH",
       requiresRestart := some false }, st)
  else if st.shell = .unknown ∨ st.configFile = "" then
    ({ success := false,
       message := "Não foi possível detectar o shell do usuário" }, st)
  else
    let exportLine := generateExportLine path st.shell
    match st.file with
    | some lines =>
        if fileIncludes lines path then
          ({ success := true,
             message := path ++ " já está configurado em " ++ st.configFile,
             requiresRestart := some false }, st)
        else
          ({ success := true,
             message := path ++ " adicionado ao PATH em " ++ st.configFile,
             requiresRestart := some true },
           Unix.refreshProcessPath
             { st with file := some (lines ++ ["", "# Adicionado por Genesis", exportLine]) }
             path)
    | none =>
        ({ success := true,
           message := path ++ " adicionado ao PATH em " ++ st.configFile,
           requiresRestart := some true },
         Unix.refreshProcessPath
           { st with file := some (["", "# Adicionado por Genesis", exportLine]) }
           path)

/-- Number of persisted rc-file lines mentioning `path` (the claim's
"persisted entries for p"); 0 when the file does not exist. -/
def persistedEntryCount (file : Option (List String)) (path : String) : Nat :=
  match file with
  | none => 0
  | some lines => (lines.filter fun line => strIncludes line path).length

/-!  Windows environment persistence (windows-environment-manager.ts). -/

/-- State of the Windows environment manager: the user-scope registry PATH
value, the raw live process PATH string, the other process environment
variables, the other user-scope registry variables, whether the PowerShell
registry read succeeds, and whether the `setx` invocation throws. -/
structure WinEnvState where
  userPath : String
  processPath : String
  processEnv : List (String × String)
  registryEnv : List (String × String)
  registryReadable : Bool := true
  setxFails : Bool := false
deriving DecidableEq, Repr

/-- JavaScript `s.split(";")` over the character list: splitting on the
separator, with the empty string splitting to one empty field. -/
def splitSemi : List Char → List (List Char)
  | [] => [[]]
  | c :: cs =>
      let rest := splitSemi cs
      if c == ';' then [] :: rest
      else (c :: rest.headI) :: rest.tail

/-- JavaScript `s.split(";")`. -/
def strSplitSemi (s : String) : List String :=
  (splitSemi s.toList).map String.mk

/-- windows-environment-manager.ts comparison normalization inside
`isInPath`: lower-case (per character, as `toLowerCase` acts on these ASCII
paths) and forward slashes replaced by backslashes. -/
def normalizeWin (s : String) : String :=
  String.mk (s.toList.map fun c =>
    let d := c.toLower
    if d = '/' then '\\' else d)

/-- windows-environment-manager.ts: `isInPath` — splits the live process
PATH on `;` and compares entries case-insensitively after slash
normalization. -/
def Win.isInPath (st : WinEnvState) (path : String) : Bool :=
  (strSplitSemi st.processPath).any fun q => normalizeWin q == normalizeWin path

/-- windows-environment-manager.ts: `refreshProcessPath` — prepends the
entry to the live process PATH unless exactly present among the `;`-split
entries. -/
def Win.refreshProcessPath (st : WinEnvState) (path : String) : WinEnvState :=
  if (strSplitSemi st.processPath).contains path then st
  else { st with processPath := path ++ ";" ++ st.processPath }

/-- windows-environment-manager.ts: `getUserPath` — PowerShell registry
read of the user PATH, falling back to the live process PATH on error. -/
def Win.getUserPath (st : WinEnvState) : String :=
  if st.registryReadable then st.userPath else st.processPath

/-- Update-or-insert into an association list (a JavaScript object
assignment `env[name] = value`). -/
def setAssoc (l : List (String × String)) (k v : String) :
    List (String × String) :=
  (l.filter fun kv => kv.1 ≠ k) ++ [(k, v)]

/-- windows-environment-manager.ts: `addToPath` — live-PATH check, then the
1024-character `setx` ceiling check on the concatenated registry value,
then the `setx` write and the live-PATH refresh. -/
def Win.addToPath (st : WinEnvState) (path : String) :
    EnvironmentResult × WinEnvState :=
  if Win.isInPath st path then
    ({ success := true, message := path ++ " já está no PATH",
       requiresRestart := some false }, st)
  else
    let currentPath := Win.getUserPath st
    let newPath := currentPath ++ ";" ++ path
    if newPath.length > 1024 then
      ({ success := false,
         message := "O PATH excede o limite de 1024 caracteres do setx. Considere remover entradas antigas." },
       st)
    else if st.setxFails then
      ({ success := false, message := "Erro ao adicionar ao PATH: setx" }, st)
    else
      ({ success := true, message := path ++ " adicionado ao PATH do usuário",
         requiresRestart := some true },
       Win.refreshProcessPath { st with userPath := newPath } path)

/-- windows-environment-manager.ts: `setVariable` — 1024-character `setx`
ceiling check on the value, then the registry write mirrored into the
process environment. -/
def Win.setVariable (st : WinEnvState) (name value : String) :
    EnvironmentResult × WinEnvState :=
  if value.length > 1024 then
    ({ success := false,
       message := "O valor da variável " ++ name ++ " excede o limite de 1024 caracteres do setx" },
     st)
  else if st.setxFails then
    ({ success := false, message := "Erro ao definir variável: setx" }, st)
  else
    ({ success := true,
       message := "Variável " ++ name ++ " definida no registro do usuário",
       requiresRestart := some true },
     { st with registryEnv := setAssoc st.registryEnv name value,
               processEnv := setAssoc st.processEnv name value })

/-!  Concrete sample values used to evaluate the theorems on real inputs. -/

/-- A sample tool shaped like the catalog's entries. -/
def sampleTool : Tool :=
  { id := "git", name := "Git", checkCommand := "command -v git",
    installCommands :=
      { macos := some "brew install git",
        windows := some "winget install --id Git.Git",
        linux := some "sudo apt-get install git" },
    categoryId := "essential" }

/-- A sample GUI tool. -/
def sampleGuiTool : Tool :=
  { id := "vscode", name := "Visual Studio Code", checkCommand := "command -v code",
    installCommands :=
      { macos := some "brew install --cask visual-studio-code",
        windows := some "winget install --id Microsoft.VisualStudioCode",
        linux := some "snap install code --classic" },
    categoryId := "editors", isGUI := true }

/-- An environment in which every check command exits 0. -/
def envAllInstalled : InstallEnv :=
  { checkExit := fun _ => 0, managerResolution := .ok (),
    installOutcome := fun _ => .ok () }

/-- An environment in which nothing is installed and every install fails. -/
def envAllFail : InstallEnv :=
  { checkExit := fun _ => 1, managerResolution := .ok (),
    installOutcome := fun _ => .error "Falha de conexão" }

/-- A Unix world that is neither root nor sudo-cached but where the user
consents and `sudo -v` succeeds. -/
def sudoW : SudoWorld :=
  { os := .linux, isAdmin := false, sudoCached := false, consent := true,
    sudoValidationSucceeds := true,
    execOutcome := fun _ => { success := true, stdout := "", stderr := "", exitCode := 0 } }

/-- The same world but already running as root. -/
def sudoA : SudoWorld := { sudoW with isAdmin := true }

/-- A macOS world with Homebrew available whose interactive child closes
immediately. -/
def brewW : BrewWorld :=
  { brewAvailable := true, os := .macos, child := { closesAt := 0 } }

/-- A macOS batch world with Homebrew available. -/
def mgrW : ManagerWorld :=
  { os := .macos, brewAvailable := true, wingetAvailable := false,
    userAcceptsBrewInstall := false, brewInstallSucceeds := false,
    brewAvailableAfterInstall := false }

/-- A fresh Unix environment-manager state with a detectable zsh shell. -/
def unixSt : UnixEnvState :=
  { processPath := ["/usr/bin", "/bin"], shell := .zsh,
    configFile := "/home/dev/.zshrc", file := some ["# zshrc"] }

/-- A Windows environment-manager state whose registry PATH is already at
the 1024-character `setx` ceiling. -/
def winFullSt : WinEnvState :=
  { userPath := String.mk (List.replicate 1024 'a'),
    processPath := "C:\\Windows", processEnv := [], registryEnv := [] }

/-- A Windows state whose live PATH holds an entry in canonical casing. -/
def winCaseSt : WinEnvState :=
  { userPath := "C:\\Tools", processPath := "C:\\Tools;C:\\Windows",
    processEnv := [], registryEnv := [] }

/-- A variable value one character past the setx ceiling. -/
def bigValue : String := String.mk (List.replicate 1025 'x')

/-- A Linux-only tool (no Windows install command). -/
def aptOnlyTool : Tool :=
  { id := "apt-only", name := "AptOnly", checkCommand := "command -v aptonly",
    installCommands := { macos := none, windows := none,
                         linux := some "sudo apt-get install aptonly" },
    categoryId := "essential" }

/-- A category mixing a cross-platform tool with a Linux-only tool. -/
def sampleCategory : Category :=
  { id := "essential", name := "Essential", tools := [sampleTool, aptOnlyTool],
    allowsMultipleSelection := true }

/-- The same category as it survives filtering on Windows. -/
def sampleCategoryOnWindows : Category :=
  { sampleCategory with tools := [sampleTool] }

/-!  Helper lemmas. -/

theorem leadsWith_append_self (p b : List Char) : leadsWith (p ++ b) p = true := by
  induction p with
  | nil => cases b <;> rfl
  | cons c cs ih => simp [leadsWith, ih]

theorem hasSub_of_leadsWith (a l p : List Char) (h : leadsWith l p = true) :
    hasSub (a ++ l) p = true := by
  induction a with
  | nil =>
      cases l with
      | nil =>
          cases p with
          | nil => rfl
          | cons d ds => simp [leadsWith] at h
      | cons c cs => simp [hasSub, h]
  | cons x xs ih => simp [hasSub, ih]

theorem strIncludes_sandwich (a p b : String) :
    strIncludes (a ++ p ++ b) p = true := by
  unfold strIncludes
  have h1 : (a ++ p ++ b).toList = a.toList ++ (p.toList ++ b.toList) := by
    simp [String.toList, String.data_append, List.append_assoc]
  rw [h1]
  exact hasSub_of_leadsWith a.toList (p.toList ++ b.toList) p.toList
    (leadsWith_append_self p.toList b.toList)

theorem strIncludes_exportLine (p : String) (sh : ShellKind) :
    strIncludes (generateExportLine p sh) p = true := by
  cases sh <;> exact strIncludes_sandwich _ p _

theorem strIncludes_empty_right (p : String) (h : p ≠ "") :
    strIncludes "" p = false := by
  unfold strIncludes hasSub
  cases hp : p.toList with
  | nil =>
      exfalso
      apply h
      cases p with
      | mk l =>
          have : l = [] := hp
          subst this
          rfl
  | cons c cs => rfl

theorem fileIncludes_false_of_count (lines : List String) (p : String)
    (h : (lines.filter fun line => strIncludes line p).length = 0) :
    fileIncludes lines p = false := by
  rw [List.length_eq_zero, List.filter_eq_nil_iff] at h
  unfold fileIncludes
  rw [List.any_eq_false]
  intro line hline
  simpa using h line hline

/-!  Claim C1. -/

/-- C1: for every tool whose `checkCommand` exits 0, `installTool` neither
resolves the package manager nor invokes the adapter, and returns an
outcome with `alreadyInstalled = true` and `success = true`. -/
theorem installTool_already_installed (env : InstallEnv) (tool : Tool)
    (h : env.checkExit tool.checkCommand = 0) :
    (installTool env tool).managerResolved = false ∧
    (installTool env tool).installInvoked = false ∧
    (installTool env tool).result.alreadyInstalled = true ∧
    (installTool env tool).result.success = true := by
  simp [installTool, checkInstalled, h]

/-- Witness for C1 at a concrete environment and tool. -/
theorem installTool_already_installed_witness :
    envAllInstalled.checkExit sampleTool.checkCommand = 0 ∧
    ((installTool envAllInstalled sampleTool).managerResolved = false ∧
     (installTool envAllInstalled sampleTool).installInvoked = false ∧
     (installTool envAllInstalled sampleTool).result.alreadyInstalled = true ∧
     (installTool envAllInstalled sampleTool).result.success = true) :=
  ⟨rfl, installTool_already_installed envAllInstalled sampleTool rfl⟩

/-!  Claim C8. -/

/-- C8: every `InstallationResult` produced by `installTool` satisfies the
invariant that `alreadyInstalled = true` implies `success = true`, on all
paths. -/
theorem installTool_alreadyInstalled_implies_success (env : InstallEnv)
    (tool : Tool)
    (h : (installTool env tool).result.alreadyInstalled = true) :
    (installTool env tool).result.success = true := by
  by_cases hc : checkInstalled env tool
  · simp [installTool, hc]
  · cases hm : env.managerResolution with
    | error msg => simp [installTool, hc, hm] at h
    | ok u =>
        cases hi : env.installOutcome tool.id with
        | ok v => simp [installTool, hc, hm, hi] at h
        | error msg => simp [installTool, hc, hm, hi] at h

/-- Witness for C8 at a concrete environment and tool. -/
theorem installTool_alreadyInstalled_implies_success_witness :
    (installTool envAllInstalled sampleTool).result.alreadyInstalled = true ∧
    (installTool envAllInstalled sampleTool).result.success = true :=
  ⟨rfl, installTool_alreadyInstalled_implies_success envAllInstalled sampleTool rfl⟩

/-!  Claim C6. -/

/-- C6: an install failure is caught and translated into the outcome's
`error` string, every tool of the batch still yields its own outcome in
order, and a failing tool is logged at warning level exactly when it is a
GUI tool (error level otherwise), with `success = false` either way. -/
theorem installTools_failure_isolation (env : InstallEnv) (tools : List Tool)
    (tool : Tool) (msg : String) (i : Nat)
    (hm : env.managerResolution = .ok ())
    (hi : env.installOutcome tool.id = .error msg)
    (hc : checkInstalled env tool = false) :
    (installTools env tools).length = tools.length ∧
    (installTools env tools).get? i = (tools.get? i).map (installTool env) ∧
    (installTool env tool).result.success = false ∧
    (installTool env tool).result.error = some msg ∧
    (installTool env tool).failureLog =
      some (if tool.isGUI then .warn else .error) := by
  refine ⟨?_, ?_, ?_, ?_, ?_⟩
  · simp [installTools]
  · simp [installTools]
  · simp [installTool, hc, hm, hi]
  · simp [installTool, hc, hm, hi]
  · simp [installTool, hc, hm, hi]

/-- Witness for C6 at a concrete batch with a failing GUI tool. -/
theorem installTools_failure_isolation_witness :
    envAllFail.managerResolution = .ok () ∧
    envAllFail.installOutcome sampleGuiTool.id = .error "Falha de conexão" ∧
    checkInstalled envAllFail sampleGuiTool = false ∧
    ((installTools envAllFail [sampleGuiTool, sampleTool]).length =
       [sampleGuiTool, sampleTool].length ∧
     (installTools envAllFail [sampleGuiTool, sampleTool]).get? 1 =
       ([sampleGuiTool, sampleTool].get? 1).map (installTool envAllFail) ∧
     (installTool envAllFail sampleGuiTool).result.success = false ∧
     (installTool envAllFail sampleGuiTool).result.error = some "Falha de conexão" ∧
     (installTool envAllFail sampleGuiTool).failureLog =
       some (if sampleGuiTool.isGUI then .warn else .error)) :=
  ⟨rfl, rfl, rfl,
   installTools_failure_isolation envAllFail [sampleGuiTool, sampleTool]
     sampleGuiTool "Falha de conexão" 1 rfl rfl rfl⟩

/-!  Claim C9. -/

/-- C9: after `filterCategoriesByOS`, every tool of every surviving category
has an install command for the current OS — a tool with no entry for the
current OS never reaches the orchestrator. -/
theorem filterCategoriesByOS_excludes_unsupported (categories : List Category)
    (os : OperatingSystem) (cat : Category) (tool : Tool)
    (hcat : cat ∈ filterCategoriesByOS categories os)
    (htool : tool ∈ cat.tools) :
    (getInstallCommand tool os).isSome = true := by
  unfold filterCategoriesByOS at hcat
  rw [List.mem_filterMap] at hcat
  obtain ⟨c, _, heq⟩ := hcat
  by_cases hios : c.id = "ios" ∧ os ≠ .macos
  · rw [if_pos hios] at heq
    exact absurd heq (by simp)
  · rw [if_neg hios] at heq
    by_cases hemp :
        (c.tools.filter fun t => (getInstallCommand t os).isSome).isEmpty = true
    · simp only [hemp, if_pos] at heq
      exact absurd heq (by simp)
    · simp only [hemp] at heq
      rw [if_neg (by simp [hemp])] at heq
      obtain rfl : { c with
          tools := c.tools.filter fun t => (getInstallCommand t os).isSome } = cat :=
        Option.some.inj heq
      exact (List.mem_filter.mp htool).2

/-- Witness for C9: on Windows, a category holding a Linux-only tool keeps
only the tools with a Windows command. -/
theorem filterCategoriesByOS_excludes_unsupported_witness :
    sampleCategoryOnWindows ∈ filterCategoriesByOS [sampleCategory] .windows ∧
    sampleTool ∈ sampleCategoryOnWindows.tools ∧
    (getInstallCommand sampleTool .windows).isSome = true :=
  ⟨by decide, by decide,
   filterCategoriesByOS_excludes_unsupported [sampleCategory] .windows
     sampleCategoryOnWindows sampleTool (by decide) (by decide)⟩

/-!  Claim C3. -/

theorem linuxInstaller_updateRuns_flagSet (ws : List LinuxUpdateWorld) :
    LinuxInstaller.updateRuns ws true = 0 := by
  induction ws with
  | nil => rfl
  | cons w ws ih => simp [LinuxInstaller.updateRuns, LinuxInstaller.update, ih]

theorem linuxInstaller_updateRuns_le_one (ws : List LinuxUpdateWorld) :
    LinuxInstaller.updateRuns ws false ≤ 1 := by
  induction ws with
  | nil => simp [LinuxInstaller.updateRuns]
  | cons w ws ih =>
      by_cases ha : w.aptAvailable = true
      · by_cases hp : w.privilegesGranted = true
        · simp [LinuxInstaller.updateRuns, LinuxInstaller.update, ha, hp,
                linuxInstaller_updateRuns_flagSet]
        · simpa [LinuxInstaller.updateRuns, LinuxInstaller.update, ha, hp] using ih
      · simpa [LinuxInstaller.updateRuns, LinuxInstaller.update, ha] using ih

theorem getPackageManager_ok_means_cached (w : ManagerWorld) (st st' : ServiceState)
    (pm : AdapterInstance)
    (h : getPackageManager w st = (.ok pm, st')) :
    st'.packageManager = some pm := by
  obtain ⟨mpm, k⟩ := st
  cases mpm with
  | some pm0 =>
      simp only [getPackageManager, Prod.mk.injEq, Except.ok.injEq] at h
      obtain ⟨h1, h2⟩ := h
      subst h2
      simp [h1]
  | none =>
      cases hos : w.os <;> simp only [getPackageManager, hos] at h <;>
        (try split_ifs at h) <;>
        simp only [Prod.mk.injEq, Except.ok.injEq, reduceCtorEq, false_and] at h <;>
        obtain ⟨h1, h2⟩ := h <;> subst h2 <;> simp [h1]

/-- C3 counterexample: on a macOS batch with Homebrew available, the
adapter resolved (and cached) by `getPackageManager` is the Homebrew
adapter, yet calling `update()` on it twice executes the underlying `brew
update` package-index refresh twice — not at most once: the source's
`HomebrewAdapter.update` has no memoization flag. -/
theorem homebrew_update_not_memoized_cex :
    (getPackageManager
        { os := .macos, brewAvailable := true, wingetAvailable := false,
          userAcceptsBrewInstall := false, brewInstallSucceeds := false,
          brewAvailableAfterInstall := false } {}).1 =
      .ok { os := .macos, nonce := 0 } ∧
    ¬ ((HomebrewAdapter.update
          { brewAvailable := true, os := .macos, child := { closesAt := 0 } } true "").2 +
       (HomebrewAdapter.update
          { brewAvailable := true, os := .macos, child := { closesAt := 0 } } true "").2 ≤ 1) :=
  ⟨rfl, by decide⟩

/-- C3 amended: within one batch the adapter instance is resolved once and
cached — a second `getPackageManager` call returns the same instance and
leaves the state untouched — and the package-index refresh is memoized in
the Linux installer (`aptUpdateExecuted`), which runs `apt-get update` at
most once over any sequence of `update()` calls; the Homebrew adapter,
by contrast, re-executes `brew update` on every explicit `update()` call. -/
theorem getPackageManager_cached_once (w w' : ManagerWorld)
    (st st' : ServiceState) (pm : AdapterInstance) (ws : List LinuxUpdateWorld)
    (h : getPackageManager w st = (.ok pm, st')) :
    getPackageManager w' st' = (.ok pm, st') ∧
    LinuxInstaller.updateRuns ws false ≤ 1 := by
  constructor
  · have hc := getPackageManager_ok_means_cached w st st' pm h
    unfold getPackageManager
    rw [hc]
  · exact linuxInstaller_updateRuns_le_one ws

/-- Witness for the amended C3 on a concrete macOS batch and a concrete
sequence of Linux update calls. -/
theorem getPackageManager_cached_once_witness :
    getPackageManager mgrW {} =
      (.ok { os := .macos, nonce := 0 },
       { packageManager := some { os := .macos, nonce := 0 }, constructed := 1 }) ∧
    (getPackageManager mgrW
        { packageManager := some { os := .macos, nonce := 0 }, constructed := 1 } =
      (.ok { os := .macos, nonce := 0 },
       { packageManager := some { os := .macos, nonce := 0 }, constructed := 1 }) ∧
     LinuxInstaller.updateRuns
       [{ aptAvailable := true, privilegesGranted := true, aptUpdateSucceeds := true },
        { aptAvailable := true, privilegesGranted := true, aptUpdateSucceeds := true }]
       false ≤ 1) :=
  ⟨rfl,
   getPackageManager_cached_once mgrW mgrW {}
     { packageManager := some { os := .macos, nonce := 0 }, constructed := 1 }
     { os := .macos, nonce := 0 }
     [{ aptAvailable := true, privilegesGranted := true, aptUpdateSucceeds := true },
      { aptAvailable := true, privilegesGranted := true, aptUpdateSucceeds := true }]
     rfl⟩

/-!  Claim C4. -/

/-- States in which `sudoExec` proceeds without any consent prompt. -/
def noPromptNeeded (w : SudoWorld) : Prop :=
  w.isAdmin = true ∨ w.sudoCached = true ∨ w.os = .windows

theorem sudoExec_noPrompt (w : SudoWorld) (c : String)
    (h : noPromptNeeded w) :
    (sudoExec w c).2.1 = w ∧ (sudoExec w c).2.2 = 0 := by
  unfold sudoExec
  by_cases hw : w.os = .windows
  · simp [hw]
  · rcases h with ha | hs | hw2
    · simp [hw, ha]
    · simp [hw, hs]
    · exact absurd hw2 hw

theorem sudoExec_prompt_bound (w : SudoWorld) (c : String)
    (hc : w.consent = true) (hv : w.sudoValidationSucceeds = true) :
    (sudoExec w c).2.2 ≤ 1 ∧ noPromptNeeded (sudoExec w c).2.1 := by
  unfold sudoExec
  by_cases hw : w.os = .windows
  · simp [hw, noPromptNeeded]
  · by_cases ha : w.isAdmin = true
    · simp [hw, ha, noPromptNeeded]
    · by_cases hs : w.sudoCached = true
      · simp [hw, ha, hs, noPromptNeeded]
      · unfold requestPrivileges
        simp [hw, ha, hs, hc, hv, noPromptNeeded]

theorem sudoExecBatch_noPrompt (w : SudoWorld) (cmds : List String)
    (h : noPromptNeeded w) :
    (sudoExecBatch w cmds).2 = 0 := by
  induction cmds with
  | nil => rfl
  | cons c cs ih =>
      obtain ⟨ h1, h2 ⟩ := sudoExec_noPrompt w c h
      simp [sudoExecBatch, h1, h2, ih]

/-- C4: within one batch in which every elevation attempt succeeds (the
user consents and `sudo -v` validates), at most one consent prompt is
shown across all elevated executions; and when already admin, or on Unix
with a warm sudo cache, `requestPrivileges` returns true with no prompt. -/
theorem elevation_single_prompt (w w0 : SudoWorld) (cmds : List String)
    (hc : w.consent = true) (hv : w.sudoValidationSucceeds = true)
    (h0 : w0.isAdmin = true ∨ (w0.os ≠ .windows ∧ w0.sudoCached = true)) :
    (sudoExecBatch w cmds).2 ≤ 1 ∧
    (requestPrivileges w0).1 = true ∧ (requestPrivileges w0).2.2 = 0 := by
  refine ⟨ ?_, ?_, ?_ ⟩
  · cases cmds with
    | nil => simp [sudoExecBatch]
    | cons c cs =>
        have hwpres : (sudoExec w c).2.1.consent = true ∧
            (sudoExec w c).2.1.sudoValidationSucceeds = true := by
          unfold sudoExec requestPrivileges
          split_ifs <;> simp [hc, hv]
        obtain ⟨ hb, hn ⟩ := sudoExec_prompt_bound w c hc hv
        have hrest := sudoExecBatch_noPrompt (sudoExec w c).2.1 cs hn
        simp [sudoExecBatch, hrest]
        omega
  · unfold requestPrivileges
    rcases h0 with ha | ⟨ hw, hs ⟩
    · simp [ha]
    · simp [hw, hs]
  · unfold requestPrivileges
    rcases h0 with ha | ⟨ hw, hs ⟩
    · simp [ha]
    · simp [hw, hs]

/-- Witness for C4: a two-command Unix batch prompts at most once, and a
root world needs no prompt. -/
theorem elevation_single_prompt_witness :
    sudoW.consent = true ∧ sudoW.sudoValidationSucceeds = true ∧
    (sudoA.isAdmin = true ∨ (sudoA.os ≠ OperatingSystem.windows ∧ sudoA.sudoCached = true)) ∧
    ((sudoExecBatch sudoW ["apt-get update", "apt-get install -y git"]).2 ≤ 1 ∧
     (requestPrivileges sudoA).1 = true ∧ (requestPrivileges sudoA).2.2 = 0) :=
  ⟨ rfl, rfl, Or.inl rfl,
   elevation_single_prompt sudoW sudoA ["apt-get update", "apt-get install -y git"]
     rfl rfl (Or.inl rfl) ⟩

/-!  Claim C7. -/

/-- C7: `executeInteractive` defaults its wall-clock timeout to 300000 ms
(300 s); when the child has not closed by the time the timer fires, it
sends SIGTERM and fails with a `ShellError` carrying exit code 124, the
command, and the timeout (in seconds) in its message; the Homebrew
adapter's `install` overrides the timeout to 600000 ms (600 s). -/
theorem executeInteractive_timeout_default_and_override
    (command c : String) (ch : ChildBehavior) (timeoutOpt : Option Nat)
    (child : ChildBehavior) (w : BrewWorld) (tool : Tool) (cmd : String)
    (hspawn : child.spawnError = none)
    (htime : timeoutOpt.getD 300000 ≤ child.closesAt)
    (hbrew : w.brewAvailable = true) (hos : w.os = OperatingSystem.macos)
    (hcmd : tool.installCommands.macos = some cmd) :
    executeInteractive c none ch = executeInteractive c (some 300000) ch ∧
    (executeInteractive command timeoutOpt child).2 = [ChildSignal.sigterm] ∧
    (executeInteractive command timeoutOpt child).1 =
      Except.error
        { message := "Comando excedeu o timeout de " ++
            toString (timeoutOpt.getD 300000 / 1000) ++ "s",
          exitCode := 124, command := command, stdout := "", stderr := "Timeout" } ∧
    (HomebrewAdapter.install w tool).2 = [(cmd, 600000)] := by
  refine ⟨rfl, ?_, ?_, ?_⟩
  · simp [executeInteractive, hspawn, Nat.not_lt.mpr htime]
  · simp [executeInteractive, hspawn, Nat.not_lt.mpr htime]
  · unfold HomebrewAdapter.install
    rw [hbrew]
    simp only [hos]
    have hget : getInstallCommand tool OperatingSystem.macos = some cmd := hcmd
    rw [hget]
    cases hx : (executeInteractive cmd (some 600000) w.child).1 <;> simp [hx]

/-- Witness for C7: a child that would close only after 400 s is killed
under the default timeout, and a concrete Homebrew install runs
interactively with the 600 s override. -/
theorem executeInteractive_timeout_witness :
    (({ closesAt := 400000 } : ChildBehavior).spawnError = none ∧
     (none : Option Nat).getD 300000 ≤ ({ closesAt := 400000 } : ChildBehavior).closesAt ∧
     brewW.brewAvailable = true ∧ brewW.os = OperatingSystem.macos ∧
     sampleTool.installCommands.macos = some "brew install git") ∧
    (executeInteractive "x" none { closesAt := 0 } =
       executeInteractive "x" (some 300000) { closesAt := 0 } ∧
     (executeInteractive "brew install git" none { closesAt := 400000 }).2 =
       [ChildSignal.sigterm] ∧
     (executeInteractive "brew install git" none { closesAt := 400000 }).1 =
       Except.error
         { message := "Comando excedeu o timeout de " ++
             toString ((none : Option Nat).getD 300000 / 1000) ++ "s",
           exitCode := 124, command := "brew install git", stdout := "",
           stderr := "Timeout" } ∧
     (HomebrewAdapter.install brewW sampleTool).2 = [("brew install git", 600000)]) :=
  ⟨⟨rfl, by decide, rfl, rfl, rfl⟩,
   executeInteractive_timeout_default_and_override "brew install git" "x"
     { closesAt := 0 } none { closesAt := 400000 } brewW sampleTool
     "brew install git" rfl (by decide) rfl rfl rfl⟩

/-!  Claim C2. -/

/-- C2: from a state where `p` is not yet in the live process PATH nor
persisted in the rc file, with a detectable shell (and `p` a nonempty path
that does not occur in the marker comment), calling `addToPath p` twice in
a row persists exactly one rc-file entry mentioning `p`, both calls return
success, and `isInPath p` is true after either call. -/
theorem unix_addToPath_idempotent (st : UnixEnvState) (p : String)
    (h1 : Unix.isInPath st p = false)
    (h2 : persistedEntryCount st.file p = 0)
    (h3 : ¬ (st.shell = ShellKind.unknown ∨ st.configFile = ""))
    (h4 : strIncludes "# Adicionado por Genesis" p = false)
    (h5 : p ≠ "") :
    (Unix.addToPath st p).1.success = true ∧
    persistedEntryCount (Unix.addToPath st p).2.file p = 1 ∧
    Unix.isInPath (Unix.addToPath st p).2 p = true ∧
    (Unix.addToPath (Unix.addToPath st p).2 p).1.success = true ∧
    persistedEntryCount (Unix.addToPath (Unix.addToPath st p).2 p).2.file p = 1 ∧
    Unix.isInPath (Unix.addToPath (Unix.addToPath st p).2 p).2 p = true := by
  obtain ⟨pp, sh, cf, file⟩ := st
  simp only [Unix.isInPath] at h1
  have hmem : p ∉ pp := by simpa using h1
  have hxp : strIncludes (generateExportLine p sh) p = true := strIncludes_exportLine p sh
  have hep : strIncludes "" p = false := strIncludes_empty_right p h5
  cases file with
  | none =>
      have e1 : Unix.addToPath ⟨pp, sh, cf, none⟩ p =
          ({ success := true, message := p ++ " adicionado ao PATH em " ++ cf,
             requiresRestart := some true },
           ⟨p :: pp, sh, cf,
            some ["", "# Adicionado por Genesis", generateExportLine p sh]⟩) := by
        simp [Unix.addToPath, Unix.isInPath, Unix.refreshProcessPath, h1, hmem, h3]
      rw [e1]
      have e2 : Unix.addToPath
          (⟨p :: pp, sh, cf,
            some ["", "# Adicionado por Genesis", generateExportLine p sh]⟩ : UnixEnvState) p =
          ({ success := true, message := p ++ " já está no PATH",
             requiresRestart := some false },
           ⟨p :: pp, sh, cf,
            some ["", "# Adicionado por Genesis", generateExportLine p sh]⟩) := by
        simp [Unix.addToPath, Unix.isInPath]
      rw [e2]
      refine ⟨rfl, ?_, ?_, rfl, ?_, ?_⟩ <;>
        simp [persistedEntryCount, Unix.isInPath, hep, h4, hxp]
  | some lines =>
      have hfl : lines.filter (fun line => strIncludes line p) = [] :=
        List.length_eq_zero.mp (by simpa [persistedEntryCount] using h2)
      have hinc : fileIncludes lines p = false :=
        fileIncludes_false_of_count lines p (by simpa [persistedEntryCount] using h2)
      have e1 : Unix.addToPath ⟨pp, sh, cf, some lines⟩ p =
          ({ success := true, message := p ++ " adicionado ao PATH em " ++ cf,
             requiresRestart := some true },
           ⟨p :: pp, sh, cf,
            some (lines ++ ["", "# Adicionado por Genesis", generateExportLine p sh])⟩) := by
        simp [Unix.addToPath, Unix.isInPath, Unix.refreshProcessPath, h1, hmem, h3, hinc]
      rw [e1]
      have e2 : Unix.addToPath
          (⟨p :: pp, sh, cf,
            some (lines ++ ["", "# Adicionado por Genesis", generateExportLine p sh])⟩ :
              UnixEnvState) p =
          ({ success := true, message := p ++ " já está no PATH",
             requiresRestart := some false },
           ⟨p :: pp, sh, cf,
            some (lines ++ ["", "# Adicionado por Genesis", generateExportLine p sh])⟩) := by
        simp [Unix.addToPath, Unix.isInPath]
      rw [e2]
      refine ⟨rfl, ?_, ?_, rfl, ?_, ?_⟩ <;>
        simp [persistedEntryCount, Unix.isInPath, List.filter_append, hfl, hep, h4, hxp]

/-- Witness for C2 on a fresh zsh state and a concrete path. -/
theorem unix_addToPath_idempotent_witness :
    (Unix.isInPath unixSt "/opt/homebrew/bin" = false ∧
     persistedEntryCount unixSt.file "/opt/homebrew/bin" = 0 ∧
     ¬ (unixSt.shell = ShellKind.unknown ∨ unixSt.configFile = "") ∧
     strIncludes "# Adicionado por Genesis" "/opt/homebrew/bin" = false ∧
     "/opt/homebrew/bin" ≠ "") ∧
    ((Unix.addToPath unixSt "/opt/homebrew/bin").1.success = true ∧
     persistedEntryCount (Unix.addToPath unixSt "/opt/homebrew/bin").2.file
       "/opt/homebrew/bin" = 1 ∧
     Unix.isInPath (Unix.addToPath unixSt "/opt/homebrew/bin").2
       "/opt/homebrew/bin" = true ∧
     (Unix.addToPath (Unix.addToPath unixSt "/opt/homebrew/bin").2
        "/opt/homebrew/bin").1.success = true ∧
     persistedEntryCount
       (Unix.addToPath (Unix.addToPath unixSt "/opt/homebrew/bin").2
          "/opt/homebrew/bin").2.file "/opt/homebrew/bin" = 1 ∧
     Unix.isInPath
       (Unix.addToPath (Unix.addToPath unixSt "/opt/homebrew/bin").2
          "/opt/homebrew/bin").2 "/opt/homebrew/bin" = true) :=
  ⟨⟨by decide, by decide, by decide, by decide, by decide⟩,
   unix_addToPath_idempotent unixSt "/opt/homebrew/bin"
     (by decide) (by decide) (by decide) (by decide) (by decide)⟩

/-!  Claim C5. -/

/-- C5: on Windows, a persistence write whose resulting value would exceed
the fixed 1024-character setx ceiling — an `addToPath` whose concatenated
registry PATH value passes the limit, or a `setVariable` whose value does —
returns success=false and leaves the state (registry values, live process
PATH, process environment) unchanged. -/
theorem windows_length_ceiling (st : WinEnvState) (p n v : String)
    (h1 : Win.isInPath st p = false)
    (h2 : (Win.getUserPath st ++ ";" ++ p).length > 1024)
    (h3 : v.length > 1024) :
    (Win.addToPath st p).1.success = false ∧ (Win.addToPath st p).2 = st ∧
    (Win.setVariable st n v).1.success = false ∧
    (Win.setVariable st n v).2 = st := by
  have h2a : 1024 < (Win.getUserPath st ++ ";" ++ p).length := h2
  refine ⟨?_, ?_, ?_, ?_⟩
  · simp only [Win.addToPath, h1, Bool.false_eq_true, if_false]
    rw [if_pos h2a]
  · simp only [Win.addToPath, h1, Bool.false_eq_true, if_false]
    rw [if_pos h2a]
  · simp only [Win.setVariable]
    rw [if_pos h3]
  · simp only [Win.setVariable]
    rw [if_pos h3]

/-- Witness for C5 on a registry PATH already at the ceiling and an
oversized variable value. -/
theorem windows_length_ceiling_witness :
    (Win.isInPath winFullSt "C:\\NewTool" = false ∧
     (Win.getUserPath winFullSt ++ ";" ++ "C:\\NewTool").length > 1024 ∧
     bigValue.length > 1024) ∧
    ((Win.addToPath winFullSt "C:\\NewTool").1.success = false ∧
     (Win.addToPath winFullSt "C:\\NewTool").2 = winFullSt ∧
     (Win.setVariable winFullSt "JAVA_HOME" bigValue).1.success = false ∧
     (Win.setVariable winFullSt "JAVA_HOME" bigValue).2 = winFullSt) :=
  ⟨⟨by decide, by decide, by decide⟩,
   windows_length_ceiling winFullSt "C:\\NewTool" "JAVA_HOME" bigValue
     (by decide) (by decide) (by decide)⟩

/-!  Claim C10. -/

/-- C10: Windows `isInPath` compares PATH entries case-insensitively after
normalizing forward slashes to backslashes, so for a path `p` present
verbatim among the live PATH entries, `addToPath` on any variant `q` that
differs only in letter case or slash direction (same normalization) is a
no-op that returns success=true and leaves the state — in particular the
persistence medium — unchanged. -/
theorem windows_addToPath_case_insensitive (st : WinEnvState) (p q : String)
    (h1 : p ∈ strSplitSemi st.processPath)
    (h2 : normalizeWin q = normalizeWin p) :
    Win.isInPath st q = true ∧
    (Win.addToPath st q).1.success = true ∧
    (Win.addToPath st q).2 = st := by
  have hin : Win.isInPath st q = true := by
    unfold Win.isInPath
    rw [List.any_eq_true]
    exact ⟨p, h1, by simp [h2]⟩
  refine ⟨hin, ?_, ?_⟩ <;> simp [Win.addToPath, hin]

/-- Witness for C10: adding a lower-cased forward-slash variant of an entry
already in the live PATH is a no-op. -/
theorem windows_addToPath_case_insensitive_witness :
    ("C:\\Tools" ∈ strSplitSemi winCaseSt.processPath ∧
     normalizeWin "c:/tools" = normalizeWin "C:\\Tools") ∧
    (Win.isInPath winCaseSt "c:/tools" = true ∧
     (Win.addToPath winCaseSt "c:/tools").1.success = true ∧
     (Win.addToPath winCaseSt "c:/tools").2 = winCaseSt) :=
  ⟨⟨by decide, by decide⟩,
   windows_addToPath_case_insensitive winCaseSt "C:\\Tools" "c:/tools"
     (by decide) (by decide)⟩

end Genesis
